import Mathlib

/-!
Verification of the Movie-Argument frontend (TypeScript) against its
natural-language specification.  The definitions below are a shallow
embedding of the client code: JS numbers holding monetary amounts,
ids and counts are modelled as `ℤ`/`ℕ`, scores and weights as `ℚ`,
JS strings as `String`, nullable/optional values as `Option`, and a
function that can throw as one returning `Except`.
-/

namespace MovieArgument

/-- Models the JS expression `v || fallback` for a string-or-undefined `v`:
JS falls through to the fallback when `v` is `undefined`/`null` or the empty
string (both are falsy). -/
def jsStringOr (value : Option String) (fallback : String) : String :=
  match value with
  | some s => if s = "" then fallback else s
  | none => fallback

/-- Models JS `String.prototype.trim`: whitespace is removed from both ends
of the string. -/
def jsTrim (s : String) : String :=
  String.mk (((s.data.dropWhile Char.isWhitespace).reverse.dropWhile
      Char.isWhitespace).reverse)

/-- Models `Number.prototype.toFixed digits` for a nonnegative rational:
the integer `n` minimising the distance of `n / 10^digits` to the value is
chosen, ties going to the larger `n` (ECMA-262), i.e. `⌊x·10^d + 1/2⌋`, and
is rendered with exactly `digits` digits after the decimal point. -/
def jsToFixedNonneg (x : ℚ) (digits : ℕ) : String :=
  let n : ℕ := (⌊x * (10 : ℚ) ^ digits + 1 / 2⌋).toNat
  if digits = 0 then
    toString n
  else
    let intPart := n / 10 ^ digits
    let fracStr := toString (n % 10 ^ digits)
    toString intPart ++ "." ++
      String.mk (List.replicate (digits - fracStr.length) '0') ++ fracStr

/-- Models `Number.prototype.toFixed digits`: ECMA-262 first emits the sign
for a negative value and then rounds its absolute value. -/
def jsToFixed (x : ℚ) (digits : ℕ) : String :=
  if x < 0 then "-" ++ jsToFixedNonneg (-x) digits else jsToFixedNonneg x digits

/-! ## Data model (frontend/src/types.ts) -/

/-- `MovieBasic` from types.ts. -/
structure MovieBasic where
  id : ℤ
  title : String
  original_title : String
  overview : String
  poster_path : Option String
  backdrop_path : Option String
  release_date : Option String
  vote_average : ℚ
  vote_count : ℤ
  popularity : ℚ
  genre_ids : List ℤ

/-- `FeatureScore` from types.ts. -/
structure FeatureScore where
  name : String
  display_name : String
  raw_value : ℚ
  normalized_value : ℚ
  weight : ℚ
  weighted_score : ℚ
  category : String
  explanation : String

/-- `ScoreBreakdown` from types.ts. -/
structure ScoreBreakdown where
  movie_id : ℤ
  movie_title : String
  total_score : ℚ
  grade : String
  features : List FeatureScore
  strengths : List String
  weaknesses : List String
  summary : String

/-- The string union of movie1 | movie2 | tie from types.ts. -/
inductive Winner where
  | movie1
  | movie2
  | tie
deriving DecidableEq

/-- The string union of decisive | clear | close | very_close from types.ts. -/
inductive Confidence where
  | decisive
  | clear
  | close
  | very_close
deriving DecidableEq

/-- The string union of high | medium | low from types.ts. -/
inductive Importance where
  | high
  | medium
  | low
deriving DecidableEq

/-- `ArgumentPoint` from types.ts. -/
structure ArgumentPoint where
  factor : String
  winner : Winner
  movie1_value : String
  movie2_value : String
  difference : ℚ
  importance : Importance
  explanation : String

/-- `RadarDataPoint` from types.ts. -/
structure RadarDataPoint where
  feature : String
  movie1 : ℚ
  movie2 : ℚ

/-- `BarDataPoint` from types.ts. -/
structure BarDataPoint where
  feature : String
  movie1_score : ℚ
  movie2_score : ℚ
  difference : ℚ

/-- `ComparisonResult` from types.ts. -/
structure ComparisonResult where
  movie1_id : ℤ
  movie1_title : String
  movie1_score : ℚ
  movie1_breakdown : ScoreBreakdown
  movie2_id : ℤ
  movie2_title : String
  movie2_score : ℚ
  movie2_breakdown : ScoreBreakdown
  winner : Winner
  score_difference : ℚ
  confidence : Confidence
  arguments : List ArgumentPoint
  verdict : String
  detailed_analysis : String
  radar_data : List RadarDataPoint
  bar_data : List BarDataPoint

/-- `WeightConfig` from types.ts: the seven weight fractions. -/
structure WeightConfig where
  vote_average : ℚ
  vote_count : ℚ
  popularity : ℚ
  revenue : ℚ
  runtime_quality : ℚ
  release_recency : ℚ
  cast_star_power : ℚ

/-- `DEFAULT_WEIGHTS` from types.ts. -/
def DEFAULT_WEIGHTS : WeightConfig :=
  { vote_average := 0.25
    vote_count := 0.15
    popularity := 0.20
    revenue := 0.10
    runtime_quality := 0.05
    release_recency := 0.10
    cast_star_power := 0.15 }

/-! ## API client (frontend/src/services/api.ts) -/

/-- The `ApiError` class of api.ts: an `Error` carrying the HTTP status. -/
structure ApiError where
  status : ℕ
  message : String
deriving DecidableEq

/-- Shape of a JSON error payload `{error?: string, detail?: string}` as read
by `fetchApi` on a non-ok response. -/
structure ErrorBody where
  error : Option String
  detail : Option String

/-- A fetch `Response` as `fetchApi` consumes it: the HTTP status, the body
parsed as an error payload (`none` when `response.json()` rejects), and the
successfully-typed payload used on the ok path. -/
structure HttpResponse (α : Type) where
  status : ℕ
  errorBody : Option ErrorBody
  data : α

/-- `Response.ok` of the fetch API: status in the range 200–299. -/
def responseOk (status : ℕ) : Bool :=
  200 ≤ status && status ≤ 299

/-- `fetchApi` of api.ts.  On an ok response it resolves with the parsed
payload; otherwise it parses the body as an error payload (substituting
the Unknown-error payload when parsing fails) and throws an `ApiError`
with message `error.error || error.detail || "Request failed"`. -/
def fetchApi {α : Type} (resp : HttpResponse α) : Except ApiError α :=
  if responseOk resp.status then
    Except.ok resp.data
  else
    let body := resp.errorBody.getD { error := some "Unknown error", detail := none }
    Except.error
      { status := resp.status
        message := jsStringOr body.error (jsStringOr body.detail "Request failed") }

/-- The `{success, comparison, error}` envelope returned by `POST /compare`. -/
structure CompareResponse where
  success : Bool
  comparison : Option ComparisonResult
  error : Option String

/-- `compareMovies` of api.ts, with the single network call modelled by the
`fetched` argument (the settled outcome of the fetchApi call on /compare).
A rejection propagates (its message is what `ComparePage` reads); otherwise
`if (!response.success || !response.comparison)` the function throws
`new Error(response.error || "Comparison failed")`, else it returns the
`comparison` field. -/
def compareMovies (fetched : Except ApiError CompareResponse) :
    Except String ComparisonResult :=
  match fetched with
  | Except.error e => Except.error e.message
  | Except.ok resp =>
    if resp.success then
      match resp.comparison with
      | some c => Except.ok c
      | none => Except.error (jsStringOr resp.error "Comparison failed")
    else
      Except.error (jsStringOr resp.error "Comparison failed")

/-- The body `{movie1_id, movie2_id, weights}` that `compareMovies` serialises
into its POST request. -/
structure CompareRequestBody where
  movie1_id : ℤ
  movie2_id : ℤ
  weights : Option WeightConfig

/-- Construction of the POST body in `compareMovies` (api.ts): the three
values are placed in the body object untouched. -/
def compareRequestBody (movie1Id movie2Id : ℤ) (weights : Option WeightConfig) :
    CompareRequestBody :=
  { movie1_id := movie1Id, movie2_id := movie2Id, weights := weights }

/-- The query parameters built by `getMovieScore` (api.ts).  Each of the seven
fields is passed through JS `String(·)` — abstracted here as the argument
`numToStr` — and set on the `URLSearchParams`; with no weights the parameter
list stays empty. -/
def getMovieScoreParams (numToStr : ℚ → String) (weights : Option WeightConfig) :
    List (String × String) :=
  match weights with
  | none => []
  | some w =>
    [("vote_average_weight", numToStr w.vote_average),
     ("vote_count_weight", numToStr w.vote_count),
     ("popularity_weight", numToStr w.popularity),
     ("revenue_weight", numToStr w.revenue),
     ("runtime_weight", numToStr w.runtime_quality),
     ("recency_weight", numToStr w.release_recency),
     ("cast_weight", numToStr w.cast_star_power)]

/-- `getPosterUrl` of api.ts: a falsy path (null or empty string) yields the
placeholder image URL, otherwise the TMDB image URL is assembled; the size
defaults to `"w342"`. -/
def getPosterUrl (path : Option String) (size : String := "w342") : String :=
  match path with
  | none => "https://via.placeholder.com/342x513?text=No+Poster"
  | some p =>
    if p = "" then "https://via.placeholder.com/342x513?text=No+Poster"
    else "https://image.tmdb.org/t/p/" ++ size ++ p

/-! ## Formatting utilities (frontend/src/utils/format.ts) -/

/-- `formatCurrency` of format.ts (monetary amounts from TMDB are integral,
so the argument is modelled as `ℤ`). -/
def formatCurrency (value : ℤ) : String :=
  if value ≥ 1000000000 then
    "$" ++ jsToFixed ((value : ℚ) / 1000000000) 1 ++ "B"
  else if value ≥ 1000000 then
    "$" ++ jsToFixed ((value : ℚ) / 1000000) 0 ++ "M"
  else if value ≥ 1000 then
    "$" ++ jsToFixed ((value : ℚ) / 1000) 0 ++ "K"
  else
    "$" ++ toString value

/-- `formatRuntime` of format.ts: `!minutes` catches both `null` and `0`,
then whole hours and leftover minutes are rendered. -/
def formatRuntime (minutes : Option ℕ) : String :=
  match minutes with
  | none => "N/A"
  | some m =>
    if m = 0 then "N/A"
    else
      let hours := m / 60
      let mins := m % 60
      if hours > 0 then toString hours ++ "h " ++ toString mins ++ "m"
      else toString mins ++ "m"

/-- `calculateROI` of format.ts: a non-positive budget is rejected with
`"N/A"`, otherwise `((revenue - budget) / budget) * 100` is rendered with a
leading plus sign when nonnegative. -/
def calculateROI (revenue budget : ℤ) : String :=
  if budget ≤ 0 then "N/A"
  else
    let roi : ℚ := ((revenue : ℚ) - (budget : ℚ)) / (budget : ℚ) * 100
    let sign := if roi ≥ 0 then "+" else ""
    sign ++ jsToFixed roi 0 ++ "%"

/-! ## SearchBar (frontend/src/components/SearchBar.tsx) -/

/-- What the debounced-search effect of `SearchBar` decides to do for the
current query. -/
inductive SearchAction where
  | clearResults
  | scheduleSearch (query : String)
deriving DecidableEq

/-- The branch taken by the `useEffect` in `SearchBar.tsx`: when
`query.trim().length < 2` the results are cleared and the effect returns
without scheduling anything; otherwise a debounced `searchMovies(query)`
call is scheduled. -/
def searchEffect (query : String) : SearchAction :=
  if (jsTrim query).length < 2 then SearchAction.clearResults
  else SearchAction.scheduleSearch query

/-- Whether an action of the search effect issues a network call:
only a scheduled `searchMovies` invocation does. -/
def triggersNetworkCall : SearchAction → Bool
  | SearchAction.clearResults => false
  | SearchAction.scheduleSearch _ => true

/-- The `results` state of `SearchBar` after the effect runs: the clearing
branch performs `setResults([])`; the scheduling branch leaves the list
unchanged until the response arrives. -/
def resultsAfterEffect (a : SearchAction) (prev : List MovieBasic) :
    List MovieBasic :=
  match a with
  | SearchAction.clearResults => []
  | SearchAction.scheduleSearch _ => prev

/-! ## WeightSliders and ComparePage
(frontend/src/components/WeightSliders.tsx, frontend/src/pages/ComparePage.tsx) -/

/-- `totalWeight` in `WeightSliders`:
`Object.values(weights).reduce((sum, w) => sum + w, 0)`. -/
def totalWeight (w : WeightConfig) : ℚ :=
  w.vote_average + w.vote_count + w.popularity + w.revenue +
    w.runtime_quality + w.release_recency + w.cast_star_power

/-- CSS class of the total indicator in `WeightSliders`:
`totalWeight > 0 ? "text-primary-400" : "text-red-400"`. -/
def totalWeightClass (w : WeightConfig) : String :=
  if totalWeight w > 0 then "text-primary-400" else "text-red-400"

/-- The `disabled` prop of the compare button in `ComparePage`:
`!movie1 || !movie2 || isLoading`. -/
def compareButtonDisabled (movie1 movie2 : Option MovieBasic)
    (isLoading : Bool) : Bool :=
  movie1.isNone || movie2.isNone || isLoading

/-- The `ComparePage` state that `handleCompare` touches. -/
structure CompareState where
  result : Option ComparisonResult
  error : Option String
  isLoading : Bool

/-- End state of `handleCompare` in `ComparePage.tsx`: the handler first
resets `result` and `error` to null, then on success stores the comparison,
and on a thrown `Error` stores its message while `result` stays null;
`finally` clears the loading flag. -/
def handleCompareFinish (outcome : Except String ComparisonResult) :
    CompareState :=
  match outcome with
  | Except.ok c => { result := some c, error := none, isLoading := false }
  | Except.error m => { result := none, error := some m, isLoading := false }

/-! ## ComparisonResult rendering (frontend/src/components/ComparisonResult.tsx) -/

/-- Whether the card of the first movie renders the Winner badge:
the JSX guard compares `winner` with the string movie1. -/
def movie1WinnerBadge (r : ComparisonResult) : Bool :=
  r.winner == Winner.movie1

/-- Whether the card of the second movie renders the Winner badge:
the JSX guard compares `winner` with the string movie2. -/
def movie2WinnerBadge (r : ComparisonResult) : Bool :=
  r.winner == Winner.movie2

/-! ## Concrete sample data used to instantiate proved properties -/

/-- A concrete `MovieBasic`. -/
def sampleMovie : MovieBasic :=
  { id := 27205, title := "Inception", original_title := "Inception"
    overview := "A thief who steals corporate secrets."
    poster_path := some "/inception.jpg", backdrop_path := none
    release_date := some "2010-07-15", vote_average := 8.4
    vote_count := 36000, popularity := 90.5, genre_ids := [28, 878] }

/-- A second concrete `MovieBasic`. -/
def sampleMovie2 : MovieBasic :=
  { id := 155, title := "The Dark Knight", original_title := "The Dark Knight"
    overview := "Batman raises the stakes in his war on crime."
    poster_path := some "/tdk.jpg", backdrop_path := none
    release_date := some "2008-07-16", vote_average := 8.5
    vote_count := 33000, popularity := 80.2, genre_ids := [18, 28, 80] }

/-- A concrete `ScoreBreakdown`. -/
def sampleBreakdown : ScoreBreakdown :=
  { movie_id := 27205, movie_title := "Inception", total_score := 72
    grade := "B", features := [], strengths := ["acclaim"], weaknesses := []
    summary := "Solid all around." }

/-- A concrete `ComparisonResult` whose `winner` is `tie`. -/
def tieComparison : ComparisonResult :=
  { movie1_id := 27205, movie1_title := "Inception", movie1_score := 72
    movie1_breakdown := sampleBreakdown
    movie2_id := 155, movie2_title := "The Dark Knight", movie2_score := 72
    movie2_breakdown := { sampleBreakdown with movie_id := 155, movie_title := "The Dark Knight" }
    winner := Winner.tie, score_difference := 0
    confidence := Confidence.very_close, arguments := []
    verdict := "Dead even.", detailed_analysis := ""
    radar_data := [], bar_data := [] }

/-- A concrete `CompareResponse` with a successful comparison. -/
def sampleOkResponse : CompareResponse :=
  { success := true, comparison := some tieComparison, error := none }


/-! ## Helper lemmas -/

/-- Evaluation rule for `jsToFixedNonneg` once the rounded integer is known. -/
theorem jsToFixedNonneg_floor (x : ℚ) (d n : ℕ)
    (h : ⌊x * (10 : ℚ) ^ d + 1 / 2⌋ = (n : ℤ)) :
    jsToFixedNonneg x d =
      if d = 0 then toString n
      else toString (n / 10 ^ d) ++ "." ++
        String.mk (List.replicate (d - (toString (n % 10 ^ d)).length) '0') ++
        toString (n % 10 ^ d) := by
  simp only [jsToFixedNonneg, h, Int.toNat_natCast]

/-- Trimming never lengthens a string. -/
theorem jsTrim_length_le (s : String) : (jsTrim s).length ≤ s.length := by
  have h1 : ∀ (p : Char → Bool) (l : List Char), (l.dropWhile p).length ≤ l.length :=
    fun p l => (List.dropWhile_sublist p).length_le
  calc (jsTrim s).length
      = (((s.data.dropWhile Char.isWhitespace).reverse.dropWhile
          Char.isWhitespace).reverse).length := rfl
    _ = ((s.data.dropWhile Char.isWhitespace).reverse.dropWhile
          Char.isWhitespace).length := List.length_reverse _
    _ ≤ ((s.data.dropWhile Char.isWhitespace).reverse).length := h1 _ _
    _ = (s.data.dropWhile Char.isWhitespace).length := List.length_reverse _
    _ ≤ s.data.length := h1 _ _
    _ = s.length := rfl

/-! ## Claim theorems -/

/-- C1: every settled outcome of the compareMovies network call is atomic:
either the response has `success = true` and a present `comparison` field and
exactly that complete `ComparisonResult` is returned (and stored by
`ComparePage`), or the call fails with a thrown message — the rejection
message of the transport, or the error field of the response when that field
is a present non-empty string, falling back to the fixed Comparison-failed
message — and then `ComparePage` keeps its `result` state null and stores
only the error string. -/
theorem compare_call_atomic (fetched : Except ApiError CompareResponse) :
    (∃ resp c, fetched = Except.ok resp ∧ resp.success = true ∧
      resp.comparison = some c ∧
      compareMovies fetched = Except.ok c ∧
      (handleCompareFinish (Except.ok c)).result = some c ∧
      (handleCompareFinish (Except.ok c)).error = none) ∨
    (∃ m, compareMovies fetched = Except.error m ∧
      ((∃ e, fetched = Except.error e ∧ m = e.message) ∨
       (∃ resp, fetched = Except.ok resp ∧
         m = jsStringOr resp.error "Comparison failed" ∧
         (resp.success = false ∨ resp.comparison = none))) ∧
      (handleCompareFinish (Except.error m)).result = none ∧
      (handleCompareFinish (Except.error m)).error = some m) := by
  cases fetched with
  | error e =>
    exact Or.inr ⟨e.message, rfl, Or.inl ⟨e, rfl, rfl⟩, rfl, rfl⟩
  | ok resp =>
    cases hs : resp.success with
    | false =>
      refine Or.inr ⟨jsStringOr resp.error "Comparison failed", ?_,
        Or.inr ⟨resp, rfl, rfl, Or.inl hs⟩, rfl, rfl⟩
      simp [compareMovies, hs]
    | true =>
      cases hc : resp.comparison with
      | some c =>
        refine Or.inl ⟨resp, c, rfl, hs, hc, ?_, rfl, rfl⟩
        simp [compareMovies, hs, hc]
      | none =>
        refine Or.inr ⟨jsStringOr resp.error "Comparison failed", ?_,
          Or.inr ⟨resp, rfl, rfl, Or.inr hc⟩, rfl, rfl⟩
        simp [compareMovies, hs, hc]

/-- C2 counterexample: a 500 response whose JSON body contains the error
string field with the empty string as value makes the client raise the fixed
Request-failed message, which differs from that field value — so the message
is not the body string verbatim. -/
theorem fetchApi_empty_error_field :
    fetchApi { status := 500,
               errorBody := some { error := some "", detail := none },
               data := () } =
      Except.error { status := 500, message := "Request failed" } ∧
    (("Request failed" : String) == "") = false :=
  ⟨rfl, rfl⟩

/-- C2 (amended): for every response with a non-2xx status whose JSON body
contains a non-empty `error` string field, the raised `ApiError` carries
exactly that string; when `error` is absent or empty and a non-empty `detail`
string field is present, the message is exactly the `detail` string; and a
raised `ApiError` message reaches the `ComparePage` error state unmodified. -/
theorem fetchApi_error_verbatim {α : Type} (status : ℕ) (b : ErrorBody) (d : α)
    (hstatus : responseOk status = false) :
    (∀ s, b.error = some s → s ≠ "" →
      fetchApi { status := status, errorBody := some b, data := d } =
        Except.error { status := status, message := s }) ∧
    (∀ s, (b.error = none ∨ b.error = some "") → b.detail = some s → s ≠ "" →
      fetchApi { status := status, errorBody := some b, data := d } =
        Except.error { status := status, message := s }) ∧
    (∀ e : ApiError,
      compareMovies (Except.error e) = Except.error e.message ∧
      (handleCompareFinish (Except.error e.message)).error = some e.message ∧
      (handleCompareFinish (Except.error e.message)).result = none) := by
  refine ⟨?_, ?_, fun e => ⟨rfl, rfl, rfl⟩⟩
  · intro s hs hne
    simp [fetchApi, hstatus, jsStringOr, hs, hne]
  · intro s hb hd hne
    rcases hb with hb | hb <;>
      simp [fetchApi, hstatus, jsStringOr, hb, hd, hne]

/-- C2 witness: a concrete 404 with both fields present surfaces the error
field verbatim. -/
theorem fetchApi_error_verbatim_witness :
    fetchApi { status := 404,
               errorBody := some { error := some "Movie not found",
                                   detail := some "ignored detail" },
               data := (0 : ℕ) } =
      Except.error { status := 404, message := "Movie not found" } := by
  have h := fetchApi_error_verbatim (α := ℕ) 404
    { error := some "Movie not found", detail := some "ignored detail" } 0
    (by decide)
  exact h.1 "Movie not found" rfl (by decide)

/-- C3: the client forwards each of the seven weights untouched — the POST
body of `compareMovies` holds the `WeightConfig` (and both ids) verbatim, and
`getMovieScore` serialises exactly the seven stored field values into its
query parameters, whatever stringification `String(·)` applies; no
normalisation, validation or clamping happens on the way. -/
theorem weights_forwarded_verbatim (numToStr : ℚ → String) (m1 m2 : ℤ)
    (w : WeightConfig) :
    (compareRequestBody m1 m2 (some w)).weights = some w ∧
    (compareRequestBody m1 m2 (some w)).movie1_id = m1 ∧
    (compareRequestBody m1 m2 (some w)).movie2_id = m2 ∧
    getMovieScoreParams numToStr (some w) =
      [("vote_average_weight", numToStr w.vote_average),
       ("vote_count_weight", numToStr w.vote_count),
       ("popularity_weight", numToStr w.popularity),
       ("revenue_weight", numToStr w.revenue),
       ("runtime_weight", numToStr w.runtime_quality),
       ("recency_weight", numToStr w.release_recency),
       ("cast_weight", numToStr w.cast_star_power)] :=
  ⟨rfl, rfl, rfl, rfl⟩

/-- C4: with all seven weights zero the summed total is not greater than 0,
so the total indicator takes the red error class, while the compare button is
not blocked: with two movies selected and no request in flight it stays
enabled, and its disabled flag is a function of the two selections and the
loading flag only — the weights never enter it. -/
theorem zero_weights_flagged_not_blocking (w : WeightConfig)
    (h : w.vote_average = 0 ∧ w.vote_count = 0 ∧ w.popularity = 0 ∧
      w.revenue = 0 ∧ w.runtime_quality = 0 ∧ w.release_recency = 0 ∧
      w.cast_star_power = 0) :
    totalWeightClass w = "text-red-400" ∧
    (∀ m1 m2 : MovieBasic, compareButtonDisabled (some m1) (some m2) false = false) ∧
    (∀ (m1 m2 : Option MovieBasic) (l : Bool),
      compareButtonDisabled m1 m2 l = (m1.isNone || m2.isNone || l)) := by
  obtain ⟨h1, h2, h3, h4, h5, h6, h7⟩ := h
  refine ⟨?_, fun m1 m2 => rfl, fun m1 m2 l => rfl⟩
  simp [totalWeightClass, totalWeight, h1, h2, h3, h4, h5, h6, h7]

/-- C4 witness: the all-zero configuration is flagged red while two selected
movies keep the button enabled. -/
theorem zero_weights_witness :
    totalWeightClass ⟨0, 0, 0, 0, 0, 0, 0⟩ = "text-red-400" ∧
    compareButtonDisabled (some sampleMovie) (some sampleMovie2) false = false := by
  have h := zero_weights_flagged_not_blocking ⟨0, 0, 0, 0, 0, 0, 0⟩
    ⟨rfl, rfl, rfl, rfl, rfl, rfl, rfl⟩
  exact ⟨h.1, h.2.1 sampleMovie sampleMovie2⟩

/-- C5: a query of fewer than 2 characters makes the SearchBar effect take
the clearing branch — no `searchMovies` network call is scheduled for it and
the results list becomes empty. -/
theorem short_query_no_search (q : String) (h : q.length < 2) :
    searchEffect q = SearchAction.clearResults ∧
    triggersNetworkCall (searchEffect q) = false ∧
    (∀ prev : List MovieBasic, resultsAfterEffect (searchEffect q) prev = []) := by
  have hl : (jsTrim q).length < 2 := lt_of_le_of_lt (jsTrim_length_le q) h
  have he : searchEffect q = SearchAction.clearResults := by
    simp [searchEffect, hl]
  exact ⟨he, by rw [he]; rfl, fun prev => by rw [he]; rfl⟩

/-- C5 witness: the one-character query takes the clearing branch. -/
theorem short_query_witness :
    searchEffect "a" = SearchAction.clearResults ∧
    triggersNetworkCall (searchEffect "a") = false ∧
    resultsAfterEffect (searchEffect "a") [] = [] := by
  have h := short_query_no_search "a" (by decide)
  exact ⟨h.1, h.2.1, h.2.2 []⟩

/-- C6: when a comparison ends in a tie, neither the first nor the second
movie card renders its Winner badge. -/
theorem tie_no_winner_badge (r : ComparisonResult) (h : r.winner = Winner.tie) :
    movie1WinnerBadge r = false ∧ movie2WinnerBadge r = false := by
  constructor <;> simp [movie1WinnerBadge, movie2WinnerBadge, h]

/-- C6 witness: the concrete tied comparison shows no badge on either side. -/
theorem tie_no_winner_badge_witness :
    movie1WinnerBadge tieComparison = false ∧
    movie2WinnerBadge tieComparison = false :=
  tie_no_winner_badge tieComparison rfl

/-- C7: `formatCurrency` renders 1 500 000 000 as "$1.5B", 2 000 000 as
"$2M" and 500 as "$500". -/
theorem formatCurrency_examples :
    formatCurrency 1500000000 = "$1.5B" ∧ formatCurrency 2000000 = "$2M" ∧
    formatCurrency 500 = "$500" := by
  refine ⟨?_, ?_, ?_⟩
  · have hq : ((1500000000 : ℤ) : ℚ) / 1000000000 = 3 / 2 := by norm_num
    have hfl : (⌊(3 / 2 : ℚ) * (10 : ℚ) ^ (1 : ℕ) + 1 / 2⌋ : ℤ) = ((15 : ℕ) : ℤ) := by
      norm_num
    have hn : jsToFixedNonneg (3 / 2) 1 = "1.5" := by
      rw [jsToFixedNonneg_floor (3 / 2) 1 15 hfl]; decide
    have hx : jsToFixed (3 / 2) 1 = "1.5" := by
      rw [jsToFixed, if_neg (by norm_num), hn]
    rw [formatCurrency, if_pos (by decide), hq, hx]; rfl
  · have hq : ((2000000 : ℤ) : ℚ) / 1000000 = 2 := by norm_num
    have hfl : (⌊(2 : ℚ) * (10 : ℚ) ^ (0 : ℕ) + 1 / 2⌋ : ℤ) = ((2 : ℕ) : ℤ) := by
      norm_num
    have hn : jsToFixedNonneg 2 0 = "2" := by
      rw [jsToFixedNonneg_floor 2 0 2 hfl]; decide
    have hx : jsToFixed (2 : ℚ) 0 = "2" := by
      rw [jsToFixed, if_neg (by norm_num), hn]
    rw [formatCurrency, if_neg (by decide), if_pos (by decide), hq, hx]; rfl
  · rw [formatCurrency, if_neg (by decide), if_neg (by decide), if_neg (by decide)]; rfl

/-- C8: `formatRuntime` renders 125 minutes as "2h 5m" and a null runtime as
"N/A". -/
theorem formatRuntime_examples :
    formatRuntime (some 125) = "2h 5m" ∧ formatRuntime none = "N/A" := by
  constructor <;> decide

/-- C9: `calculateROI` renders revenue 200 against budget 100 as "+100%",
and a zero budget — whatever the revenue — yields "N/A", so the division by
the budget is guarded. -/
theorem calculateROI_examples :
    calculateROI 200 100 = "+100%" ∧ (∀ r : ℤ, calculateROI r 0 = "N/A") ∧
    calculateROI 50 0 = "N/A" := by
  refine ⟨?_, fun r => rfl, rfl⟩
  have hq : (((200 : ℤ) : ℚ) - ((100 : ℤ) : ℚ)) / ((100 : ℤ) : ℚ) * 100 = 100 := by
    norm_num
  have hfl : (⌊(100 : ℚ) * (10 : ℚ) ^ (0 : ℕ) + 1 / 2⌋ : ℤ) = ((100 : ℕ) : ℤ) := by
    norm_num
  have hn : jsToFixedNonneg 100 0 = "100" := by
    rw [jsToFixedNonneg_floor 100 0 100 hfl]; decide
  have hx : jsToFixed (100 : ℚ) 0 = "100" := by
    rw [jsToFixed, if_neg (by norm_num), hn]
  rw [calculateROI, if_neg (by decide)]
  simp only [hq, hx, ge_iff_le]
  rw [if_pos (by norm_num)]; rfl

/-- C10: `getPosterUrl` is total over nullable paths: a null or empty path
yields the fixed placeholder URL for every size, a non-empty path yields the
TMDB base URL with size and path appended, and the one-argument form uses the
default size w342. -/
theorem getPosterUrl_total (size p : String) (hp : p ≠ "") :
    getPosterUrl none size = "https://via.placeholder.com/342x513?text=No+Poster" ∧
    getPosterUrl (some "") size = "https://via.placeholder.com/342x513?text=No+Poster" ∧
    getPosterUrl (some p) size = "https://image.tmdb.org/t/p/" ++ size ++ p ∧
    (∀ path : Option String, getPosterUrl path = getPosterUrl path "w342") := by
  refine ⟨rfl, rfl, ?_, fun path => rfl⟩
  simp [getPosterUrl, hp]

/-- C10 witness: a concrete non-empty path with an explicit size. -/
theorem getPosterUrl_total_witness :
    getPosterUrl (some "/inception.jpg") "w185" =
      "https://image.tmdb.org/t/p/" ++ "w185" ++ "/inception.jpg" := by
  have h := getPosterUrl_total "w185" "/inception.jpg" (by decide)
  exact h.2.2.1

end MovieArgument
